import Mathlib

/-!
Verification of the EssensTracker nutrition-tracking application.

Shallow embedding of `src/app.py` and `src/models.py`:
* SQLAlchemy tables become Lean structures; the database becomes explicit
  lists of rows passed in and out of each operation.
* Python `float` values become `ℚ` (the claims under scrutiny are about
  exact elementwise sums and defaulting, not rounding).
* Calendar dates become `Int` day numbers; `date.today()` becomes an
  explicit `today` parameter.
* `float(s)` on a form string becomes `pyFloat : String → Option ℚ`
  (modelling the plain decimal subset of Python float literals; a
  non-numeric string yields `none`, as `float` raises `ValueError`).
* A request that raises an uncaught exception is modelled as `none` /
  a failing `Option` result: the transaction is rolled back, nothing
  is stored.
-/

/-- Accumulates a run of leading decimal digits: returns the value read so
far, the number of digits consumed, and the remaining characters.
Embeds the digit-scanning part of Python float parsing. -/
def takeDigitsAux : List Char → Nat → Nat → Nat × Nat × List Char
  | [], acc, n => (acc, n, [])
  | c :: cs, acc, n =>
    if c.isDigit then takeDigitsAux cs (acc * 10 + (c.toNat - 48)) (n + 1)
    else (acc, n, c :: cs)

/-- Embedding of Python `float(s)` on form input, restricted to the plain
decimal grammar `[+-] digits [. digits] [eE [+-] digits]` (with at least one
digit). A string outside the grammar yields `none`, modelling the
`ValueError` that `float` raises on non-numeric input. -/
def pyFloat (s : String) : Option ℚ :=
  let signRest : ℚ × List Char :=
    match s.data with
    | [] => (1, [])
    | c :: r => if c = '-' then (-1, r) else if c = '+' then (1, r) else (1, c :: r)
  let (ip, ni, r1) := takeDigitsAux signRest.2 0 0
  let fracPart : Nat × Nat × List Char :=
    match r1 with
    | [] => (0, 0, [])
    | c :: r => if c = '.' then takeDigitsAux r 0 0 else (0, 0, c :: r)
  let (fp, nf, r2) := fracPart
  if ni + nf = 0 then none
  else
    let base : ℚ := signRest.1 * ((ip : ℚ) + (fp : ℚ) / ((10 : ℚ) ^ nf))
    match r2 with
    | [] => some base
    | c :: r =>
      if c = 'e' ∨ c = 'E' then
        let expRest : Bool × List Char :=
          match r with
          | [] => (false, [])
          | c2 :: r3 =>
            if c2 = '-' then (true, r3)
            else if c2 = '+' then (false, r3)
            else (false, c2 :: r3)
        let (ev, ne, r4) := takeDigitsAux expRest.2 0 0
        if ne = 0 ∨ r4 ≠ [] then none
        else if expRest.1 then some (base / ((10 : ℚ) ^ ev))
        else some (base * ((10 : ℚ) ^ ev))
      else none

/-- Embedding of the idiom `float(request.form.get(field, d) or d)` used
throughout `app.py`: an absent field yields the default `d` (and
`float(d) = d`), a present empty string is falsy so also yields `d`, and a
present non-empty string is handed to `float`, which fails on non-numeric
input. -/
def parseFormFloat (v : Option String) (d : ℚ) : Option ℚ :=
  match v with
  | none => some d
  | some s => if s = "" then some d else pyFloat s

/-- Row of the `Meal` table (`models.py`). `id` is the primary key assigned
by the database; `date` is the "logged for" day; the seven extended
nutrient columns default to 0 when the constructor omits them. -/
structure Meal where
  id : Nat
  user_id : Nat
  name : String
  description : String
  image_path : Option String
  meal_type : String
  date : Int
  calories : ℚ
  protein : ℚ
  carbs : ℚ
  fat : ℚ
  fiber : ℚ
  sugar : ℚ
  sodium : ℚ
  saturated_fat : ℚ
  cholesterol : ℚ
  potassium : ℚ
  vitamin_a : ℚ
  vitamin_c : ℚ
  calcium : ℚ
  iron : ℚ
  deriving DecidableEq, Repr

/-- Embedding of `Meal.query.filter_by(user_id=uid, date=d)`: the rows of
the meal table belonging to user `uid` and logged for day `d`. -/
def mealsOn (meals : List Meal) (uid : Nat) (d : Int) : List Meal :=
  meals.filter (fun m => m.user_id == uid && m.date == d)

/-- The seven-field totals record the dashboard computes (`app.py`,
`dashboard`). -/
structure Totals where
  calories : ℚ
  protein : ℚ
  carbs : ℚ
  fat : ℚ
  fiber : ℚ
  sugar : ℚ
  sodium : ℚ
  deriving DecidableEq, Repr

/-- The five-field per-day totals of the weekly plan and of the shared
profile view (`app.py`, `weekly_plan` and `shared_profile`). -/
structure Totals5 where
  calories : ℚ
  protein : ℚ
  carbs : ℚ
  fat : ℚ
  fiber : ℚ
  deriving DecidableEq, Repr

/-- Embedding of the `totals` dict built in `dashboard`: each field is
`sum(m.field for m in today_meals)` over the user's meals of day `d`. -/
def dashboardTotals (meals : List Meal) (uid : Nat) (d : Int) : Totals :=
  let ms := mealsOn meals uid d
  { calories := (ms.map Meal.calories).sum
    protein := (ms.map Meal.protein).sum
    carbs := (ms.map Meal.carbs).sum
    fat := (ms.map Meal.fat).sum
    fiber := (ms.map Meal.fiber).sum
    sugar := (ms.map Meal.sugar).sum
    sodium := (ms.map Meal.sodium).sum }

/-- Embedding of the per-day `totals` dict built in `weekly_plan` for one
day `d` of the displayed week. -/
def weeklyDayTotals (meals : List Meal) (uid : Nat) (d : Int) : Totals5 :=
  let ms := mealsOn meals uid d
  { calories := (ms.map Meal.calories).sum
    protein := (ms.map Meal.protein).sum
    carbs := (ms.map Meal.carbs).sum
    fat := (ms.map Meal.fat).sum
    fiber := (ms.map Meal.fiber).sum }

/-- Embedding of the `totals` dict built in `shared_profile` for the day
`d` (the server's today). -/
def sharedTotals (meals : List Meal) (uid : Nat) (d : Int) : Totals5 :=
  let ms := mealsOn meals uid d
  { calories := (ms.map Meal.calories).sum
    protein := (ms.map Meal.protein).sum
    carbs := (ms.map Meal.carbs).sum
    fat := (ms.map Meal.fat).sum
    fiber := (ms.map Meal.fiber).sum }

/-- The all-zero totals record. -/
def Totals.zero : Totals := ⟨0, 0, 0, 0, 0, 0, 0⟩

/-- Elementwise addition of totals records. -/
def Totals.add (a b : Totals) : Totals :=
  ⟨a.calories + b.calories, a.protein + b.protein, a.carbs + b.carbs,
   a.fat + b.fat, a.fiber + b.fiber, a.sugar + b.sugar, a.sodium + b.sodium⟩

/-- The nutrient vector of a single meal, restricted to the seven fields
the dashboard reports. -/
def mealTotals (m : Meal) : Totals :=
  ⟨m.calories, m.protein, m.carbs, m.fat, m.fiber, m.sugar, m.sodium⟩

/-- Modelled from the spec: "aggregate(D) equals the elementwise sum" — the
elementwise sum of the nutrient vectors of the user's meals logged on day
`d`, with the empty sum being the all-zero record. Spec-side definition
used to compare against `dashboardTotals`, which embeds the code. -/
def specAggregate (meals : List Meal) (uid : Nat) (d : Int) : Totals :=
  ((mealsOn meals uid d).map mealTotals).foldr Totals.add Totals.zero

/-- Row of the `DailyLimit` table (`models.py`): per-user ceilings for 10
nutrients, one logical record per user (the surrogate integer primary key
is omitted from the model). -/
structure DailyLimit where
  user_id : Nat
  calories : ℚ
  protein : ℚ
  carbs : ℚ
  fat : ℚ
  fiber : ℚ
  sugar : ℚ
  sodium : ℚ
  saturated_fat : ℚ
  cholesterol : ℚ
  potassium : ℚ
  deriving DecidableEq, Repr

/-- Embedding of `DailyLimit(user_id=self.id)`: a fresh record carrying the
column defaults of `models.py`. -/
def defaultLimits (uid : Nat) : DailyLimit :=
  { user_id := uid, calories := 2000, protein := 50, carbs := 300, fat := 65,
    fiber := 25, sugar := 50, sodium := 2300, saturated_fat := 20,
    cholesterol := 300, potassium := 3500 }

/-- Embedding of `User.get_limits` (`models.py`): look up the first
`DailyLimit` row of the user; on a miss, create one with defaults and
persist it. Returns the record, the limit table after the call, and
whether a write (an insert) was performed. -/
def get_limits (store : List DailyLimit) (uid : Nat) :
    DailyLimit × List DailyLimit × Bool :=
  match store.find? (fun l => l.user_id == uid) with
  | some l => (l, store, false)
  | none => (defaultLimits uid, store ++ [defaultLimits uid], true)

/-- The raw form fields of a POST to `/settings`: each of the 10 limit
fields is absent (`none`) or a raw string as submitted. -/
structure LimitsForm where
  calories : Option String
  protein : Option String
  carbs : Option String
  fat : Option String
  fiber : Option String
  sugar : Option String
  sodium : Option String
  saturated_fat : Option String
  cholesterol : Option String
  potassium : Option String
  deriving DecidableEq, Repr

/-- Embedding of the POST branch of `settings` (`app.py`): each limit field
is replaced by `float(request.form.get(field, default) or default)` and the
row is committed; if any `float` call raises, the request fails and the
uncommitted assignments are discarded (`none`). -/
def settings (prev : DailyLimit) (form : LimitsForm) : Option DailyLimit :=
  Option.bind (parseFormFloat form.calories 2000) fun cal =>
  Option.bind (parseFormFloat form.protein 50) fun pro =>
  Option.bind (parseFormFloat form.carbs 300) fun car =>
  Option.bind (parseFormFloat form.fat 65) fun fa =>
  Option.bind (parseFormFloat form.fiber 25) fun fib =>
  Option.bind (parseFormFloat form.sugar 50) fun su =>
  Option.bind (parseFormFloat form.sodium 2300) fun so =>
  Option.bind (parseFormFloat form.saturated_fat 20) fun sf =>
  Option.bind (parseFormFloat form.cholesterol 300) fun ch =>
  Option.bind (parseFormFloat form.potassium 3500) fun po =>
  some { user_id := prev.user_id, calories := cal, protein := pro,
         carbs := car, fat := fa, fiber := fib, sugar := su, sodium := so,
         saturated_fat := sf, cholesterol := ch, potassium := po }

/-- The characters after the last dot of a filename, embedding
`filename.rsplit('.', 1)[1]`. -/
def extAfterLastDot (cs : List Char) : List Char :=
  (cs.reverse.takeWhile (fun c => c ≠ '.')).reverse

/-- Embedding of `allowed_file` (`app.py`): the filename contains a dot and
the lowercased extension after the last dot is one of png, jpg, jpeg,
webp. -/
def allowed_file (filename : String) : Bool :=
  filename.data.contains '.' &&
    ([String.data "png", String.data "jpg", String.data "jpeg",
      String.data "webp"]).contains ((extAfterLastDot filename.data).map Char.toLower)

/-- The raw form fields of a POST to `/meal/add`: the text fields and the
seven manually enterable nutrient fields, each absent or a raw string. -/
structure MealForm where
  name : Option String
  description : Option String
  meal_type : Option String
  calories : Option String
  protein : Option String
  carbs : Option String
  fat : Option String
  fiber : Option String
  sugar : Option String
  sodium : Option String
  deriving DecidableEq, Repr

/-- The structured record a successful classifier call returns
(`analyze_meal_image`): a JSON object with up to 16 fields, any of which
may be missing. -/
structure Analysis where
  name : Option String
  description : Option String
  calories : Option ℚ
  protein : Option ℚ
  carbs : Option ℚ
  fat : Option ℚ
  fiber : Option ℚ
  sugar : Option ℚ
  sodium : Option ℚ
  saturated_fat : Option ℚ
  cholesterol : Option ℚ
  potassium : Option ℚ
  vitamin_a : Option ℚ
  vitamin_c : Option ℚ
  calcium : Option ℚ
  iron : Option ℚ
  deriving DecidableEq, Repr

/-- Embedding of the `if analysis:` branch of `add_meal`: the Meal built
from the classifier result, with `analysis.get(field, default)`
defaulting. -/
def analysisMeal (uid newId : Nat) (today : Int) (form : MealForm)
    (a : Analysis) (fn : Option String) : Meal :=
  { id := newId, user_id := uid,
    name := a.name.getD "Unbekannte Mahlzeit",
    description := a.description.getD "",
    image_path := fn,
    meal_type := form.meal_type.getD "snack",
    date := today,
    calories := a.calories.getD 0, protein := a.protein.getD 0,
    carbs := a.carbs.getD 0, fat := a.fat.getD 0, fiber := a.fiber.getD 0,
    sugar := a.sugar.getD 0, sodium := a.sodium.getD 0,
    saturated_fat := a.saturated_fat.getD 0, cholesterol := a.cholesterol.getD 0,
    potassium := a.potassium.getD 0, vitamin_a := a.vitamin_a.getD 0,
    vitamin_c := a.vitamin_c.getD 0, calcium := a.calcium.getD 0,
    iron := a.iron.getD 0 }

/-- The seven `float(request.form.get(field, 0) or 0)` calls of the manual
branch of `add_meal`, in source order; `none` if any of them raises. -/
def parsedNutrients (form : MealForm) : Option (ℚ × ℚ × ℚ × ℚ × ℚ × ℚ × ℚ) :=
  Option.bind (parseFormFloat form.calories 0) fun cal =>
  Option.bind (parseFormFloat form.protein 0) fun pro =>
  Option.bind (parseFormFloat form.carbs 0) fun car =>
  Option.bind (parseFormFloat form.fat 0) fun fa =>
  Option.bind (parseFormFloat form.fiber 0) fun fib =>
  Option.bind (parseFormFloat form.sugar 0) fun su =>
  Option.bind (parseFormFloat form.sodium 0) fun so =>
  some (cal, pro, car, fa, fib, su, so)

/-- Embedding of the `else` (manual-entry) branch of `add_meal`: name,
description and meal type from the form with their defaults, the seven
parsed nutrient fields, and the remaining seven nutrient columns at their
schema default 0. `fn` is the stored filename, if an image was saved. -/
def manualMeal (uid newId : Nat) (today : Int) (form : MealForm)
    (fn : Option String) : Option Meal :=
  (parsedNutrients form).map fun t =>
    { id := newId, user_id := uid,
      name := form.name.getD "Mahlzeit",
      description := form.description.getD "",
      image_path := fn,
      meal_type := form.meal_type.getD "snack",
      date := today,
      calories := t.1, protein := t.2.1, carbs := t.2.2.1, fat := t.2.2.2.1,
      fiber := t.2.2.2.2.1, sugar := t.2.2.2.2.2.1, sodium := t.2.2.2.2.2.2,
      saturated_fat := 0, cholesterol := 0, potassium := 0,
      vitamin_a := 0, vitamin_c := 0, calcium := 0, iron := 0 }

/-- Observable outcome of a successful meal-ingestion request: the created
Meal, the filename stored on disk (if any), and whether the external
classifier was invoked. -/
structure Ingestion where
  meal : Meal
  storedFile : Option String
  classifierCalled : Bool
  deriving DecidableEq, Repr

/-- Embedding of the POST branch of `add_meal` (`app.py`). `image` is the
uploaded file's original filename, if a file was sent; `storedName` models
the `uuid4().hex + secure_filename` renaming; `classifier` models
`analyze_meal_image`, returning `none` on any failure (the function
catches every exception and returns None). A `none` result models the
request failing (only possible when manual nutrient parsing raises). -/
def add_meal (uid newId : Nat) (today : Int) (form : MealForm)
    (image : Option String) (storedName : String → String)
    (classifier : String → Option Analysis) : Option Ingestion :=
  let fn : Option String :=
    match image with
    | some filename =>
      if allowed_file filename then some (storedName filename) else none
    | none => none
  let analysis : Option Analysis :=
    match fn with
    | some f => classifier f
    | none => none
  match analysis with
  | some a =>
    some { meal := analysisMeal uid newId today form a fn,
           storedFile := fn, classifierCalled := fn.isSome }
  | none =>
    (manualMeal uid newId today form fn).map fun m =>
      { meal := m, storedFile := fn, classifierCalled := fn.isSome }

/-- HTTP outcome of a mutating request on an existing resource. -/
inductive Resp where
  | notFound
  | forbidden
  | ok
  deriving DecidableEq, Repr

/-- Row of the `Goal` table, restricted to the columns the ownership and
creation logic touches. -/
structure Goal where
  id : Nat
  user_id : Nat
  title : String
  target_value : ℚ
  completed : Bool
  deriving DecidableEq, Repr

/-- Embedding of `add_goal` (`app.py`): builds a Goal from the form, with
`target_value` parsed by `float(request.form.get('target_value', 0) or 0)`;
`none` models the request failing when that call raises. -/
def add_goal (uid newId : Nat) (title : Option String)
    (target_value : Option String) : Option Goal :=
  (parseFormFloat target_value 0).map fun tv =>
    { id := newId, user_id := uid, title := title.getD "",
      target_value := tv, completed := false }

/-- Embedding of `complete_goal` (`app.py`): `get_or_404` on the primary
key, 403 unless the caller owns the goal, otherwise set `completed`. -/
def complete_goal (goals : List Goal) (caller gid : Nat) : Resp × List Goal :=
  match goals.find? (fun g => g.id == gid) with
  | none => (.notFound, goals)
  | some g =>
    if g.user_id ≠ caller then (.forbidden, goals)
    else (.ok, goals.map fun x => if x.id == gid then { x with completed := true } else x)

/-- Embedding of `delete_goal` (`app.py`): `get_or_404` on the primary key,
403 unless the caller owns the goal, otherwise delete the row. -/
def delete_goal (goals : List Goal) (caller gid : Nat) : Resp × List Goal :=
  match goals.find? (fun g => g.id == gid) with
  | none => (.notFound, goals)
  | some g =>
    if g.user_id ≠ caller then (.forbidden, goals)
    else (.ok, goals.filter fun x => x.id != gid)

/-- Embedding of `delete_meal` (`app.py`): `get_or_404` on the primary key,
403 unless the caller owns the meal, otherwise delete the row (and its
image file, outside this model). -/
def delete_meal (meals : List Meal) (caller mid : Nat) : Resp × List Meal :=
  match meals.find? (fun m => m.id == mid) with
  | none => (.notFound, meals)
  | some m =>
    if m.user_id ≠ caller then (.forbidden, meals)
    else (.ok, meals.filter fun x => x.id != mid)

/-- Row of the `User` table, restricted to the columns the sharing gateway
touches. -/
structure UserRec where
  id : Nat
  share_token : String
  deriving DecidableEq, Repr

/-- Embedding of `shared_profile` (`app.py`): resolve the token with
`filter_by(share_token=token).first_or_404()` (`none` models the 404) and
compute today's five-field totals for the resolved user. -/
def shared_profile (users : List UserRec) (meals : List Meal)
    (token : String) (today : Int) : Option (Nat × Totals5) :=
  (users.find? (fun u => u.share_token == token)).map fun u =>
    (u.id, sharedTotals meals u.id today)

lemma foldr_totals (ms : List Meal) :
    (ms.map mealTotals).foldr Totals.add Totals.zero =
      ⟨(ms.map Meal.calories).sum, (ms.map Meal.protein).sum,
       (ms.map Meal.carbs).sum, (ms.map Meal.fat).sum,
       (ms.map Meal.fiber).sum, (ms.map Meal.sugar).sum,
       (ms.map Meal.sodium).sum⟩ := by
  induction ms with
  | nil => rfl
  | cons m t ih =>
    simp only [List.map_cons, List.foldr_cons, ih, List.sum_cons]
    rfl

/-- Claim C1: for every user and every date `d`, the aggregated totals the
dashboard computes (and the per-day totals of the weekly plan) equal the
elementwise sum of the nutrient fields of that user's meals logged on `d`,
and for a date with zero meals the aggregation returns an all-zero
record. -/
theorem aggregation_matches_elementwise_sum (meals : List Meal) (uid : Nat) (d : Int) :
    dashboardTotals meals uid d = specAggregate meals uid d ∧
    weeklyDayTotals meals uid d =
      ⟨(specAggregate meals uid d).calories, (specAggregate meals uid d).protein,
       (specAggregate meals uid d).carbs, (specAggregate meals uid d).fat,
       (specAggregate meals uid d).fiber⟩ ∧
    (mealsOn meals uid d = [] →
      dashboardTotals meals uid d = Totals.zero ∧
      weeklyDayTotals meals uid d = ⟨0, 0, 0, 0, 0⟩) := by
  refine ⟨?_, ?_, ?_⟩
  · simp only [dashboardTotals, specAggregate, foldr_totals]
  · simp only [weeklyDayTotals, specAggregate, foldr_totals]
  · intro h
    constructor
    · simp [dashboardTotals, h, Totals.zero]
    · simp [weeklyDayTotals, h]

/-- Concrete witness for the aggregation claim: two meals of user 1 on day
0 (95 and 105 kcal) and one meal of another user; the day-0 totals sum to
200 and user 1's empty day 5 aggregates to zero. -/
theorem aggregation_matches_elementwise_sum_witness :
    dashboardTotals
        [{ id := 1, user_id := 1, name := "Apfel", description := "", image_path := none,
           meal_type := "snack", date := 0, calories := 95, protein := 0, carbs := 25,
           fat := 0, fiber := 4, sugar := 19, sodium := 2, saturated_fat := 0,
           cholesterol := 0, potassium := 195, vitamin_a := 2, vitamin_c := 14,
           calcium := 1, iron := 1 },
         { id := 2, user_id := 1, name := "Brot", description := "", image_path := none,
           meal_type := "snack", date := 0, calories := 105, protein := 4, carbs := 20,
           fat := 1, fiber := 2, sugar := 2, sodium := 150, saturated_fat := 0,
           cholesterol := 0, potassium := 60, vitamin_a := 0, vitamin_c := 0,
           calcium := 2, iron := 5 },
         { id := 3, user_id := 2, name := "Ei", description := "", image_path := none,
           meal_type := "snack", date := 0, calories := 70, protein := 6, carbs := 0,
           fat := 5, fiber := 0, sugar := 0, sodium := 70, saturated_fat := 2,
           cholesterol := 185, potassium := 70, vitamin_a := 5, vitamin_c := 0,
           calcium := 2, iron := 4 }] 1 0 =
      specAggregate
        [{ id := 1, user_id := 1, name := "Apfel", description := "", image_path := none,
           meal_type := "snack", date := 0, calories := 95, protein := 0, carbs := 25,
           fat := 0, fiber := 4, sugar := 19, sodium := 2, saturated_fat := 0,
           cholesterol := 0, potassium := 195, vitamin_a := 2, vitamin_c := 14,
           calcium := 1, iron := 1 },
         { id := 2, user_id := 1, name := "Brot", description := "", image_path := none,
           meal_type := "snack", date := 0, calories := 105, protein := 4, carbs := 20,
           fat := 1, fiber := 2, sugar := 2, sodium := 150, saturated_fat := 0,
           cholesterol := 0, potassium := 60, vitamin_a := 0, vitamin_c := 0,
           calcium := 2, iron := 5 },
         { id := 3, user_id := 2, name := "Ei", description := "", image_path := none,
           meal_type := "snack", date := 0, calories := 70, protein := 6, carbs := 0,
           fat := 5, fiber := 0, sugar := 0, sodium := 70, saturated_fat := 2,
           cholesterol := 185, potassium := 70, vitamin_a := 5, vitamin_c := 0,
           calcium := 2, iron := 4 }] 1 0 ∧
    dashboardTotals [] 1 5 = Totals.zero := by
  constructor
  · exact (aggregation_matches_elementwise_sum _ 1 0).1
  · exact ((aggregation_matches_elementwise_sum [] 1 5).2.2 (by decide)).1

lemma find?_append_of_none {α : Type} (p : α → Bool) {l₁ : List α} (l₂ : List α)
    (h : l₁.find? p = none) : (l₁ ++ l₂).find? p = l₂.find? p := by
  induction l₁ with
  | nil => simp
  | cons a t ih =>
    rw [List.find?_cons] at h
    rcases hpa : p a with hv | hv
    · rw [hpa] at h
      rw [List.cons_append, List.find?_cons, hpa]
      exact ih h
    · rw [hpa] at h
      exact absurd h (by simp)

/-- Claim C4: calling the limit resolver twice with no intervening update
returns structurally equal `DailyLimit` records, and the second call
performs no write to storage (its store is unchanged and its write flag is
false). -/
theorem get_limits_idempotent (store : List DailyLimit) (uid : Nat) :
    (get_limits (get_limits store uid).2.1 uid).1 = (get_limits store uid).1 ∧
    (get_limits (get_limits store uid).2.1 uid).2.1 = (get_limits store uid).2.1 ∧
    (get_limits (get_limits store uid).2.1 uid).2.2 = false := by
  cases h : store.find? (fun l => l.user_id == uid) with
  | some l => simp [get_limits, h]
  | none =>
    have h2 : (store ++ [defaultLimits uid]).find? (fun l => l.user_id == uid) =
        some (defaultLimits uid) := by
      rw [find?_append_of_none _ _ h]
      simp [defaultLimits]
    simp [get_limits, h, h2]

lemma parseFormFloat_default {v : Option String} {d q : ℚ}
    (hv : v = none ∨ v = some "") (h : parseFormFloat v d = some q) : q = d := by
  rcases hv with hv | hv
  · subst hv
    simp only [parseFormFloat, Option.some.injEq] at h
    exact h.symm
  · subst hv
    rw [parseFormFloat, if_pos rfl] at h
    exact (Option.some.injEq _ _ ▸ h).symm

lemma parseFormFloat_numeric {s : String} {d q r : ℚ}
    (h : parseFormFloat (some s) d = some q) (hr : pyFloat s = some r) : q = r := by
  by_cases hs : s = ""
  · subst hs
    have : pyFloat "" = none := by decide
    rw [this] at hr
    exact absurd hr (by simp)
  · simp only [parseFormFloat, if_neg hs, hr, Option.some.injEq] at h
    exact h.symm

/-- Counterexample to claim C3: a settings update whose `fiber` field is
the non-numeric string "abc" does not store the baseline default 25 — the
`float` call raises, the whole update fails, and nothing is stored. -/
theorem settings_nonnumeric_fails_counterexample :
    settings
      { user_id := 1, calories := 1800, protein := 60, carbs := 250, fat := 70,
        fiber := 30, sugar := 40, sodium := 2000, saturated_fat := 15,
        cholesterol := 250, potassium := 3000 }
      { calories := none, protein := none, carbs := none, fat := none,
        fiber := some "abc", sugar := none, sodium := none,
        saturated_fat := none, cholesterol := none, potassium := none } = none := by
  decide

/-- Claim C3 (amended): in a successful settings update, each of the 10
limit fields that was absent or submitted empty is stored as that field's
baseline default (not the previously stored value), and each field
submitted as a numeric string is stored as given; a non-empty non-numeric
field makes the whole update fail (see the counterexample), rather than
falling back to the default. -/
theorem settings_replace_with_default (prev : DailyLimit) (form : LimitsForm)
    (nl : DailyLimit) (h : settings prev form = some nl) :
    ((form.calories = none ∨ form.calories = some "") → nl.calories = 2000) ∧
    (∀ s r, form.calories = some s → pyFloat s = some r → nl.calories = r) ∧
    ((form.protein = none ∨ form.protein = some "") → nl.protein = 50) ∧
    (∀ s r, form.protein = some s → pyFloat s = some r → nl.protein = r) ∧
    ((form.carbs = none ∨ form.carbs = some "") → nl.carbs = 300) ∧
    (∀ s r, form.carbs = some s → pyFloat s = some r → nl.carbs = r) ∧
    ((form.fat = none ∨ form.fat = some "") → nl.fat = 65) ∧
    (∀ s r, form.fat = some s → pyFloat s = some r → nl.fat = r) ∧
    ((form.fiber = none ∨ form.fiber = some "") → nl.fiber = 25) ∧
    (∀ s r, form.fiber = some s → pyFloat s = some r → nl.fiber = r) ∧
    ((form.sugar = none ∨ form.sugar = some "") → nl.sugar = 50) ∧
    (∀ s r, form.sugar = some s → pyFloat s = some r → nl.sugar = r) ∧
    ((form.sodium = none ∨ form.sodium = some "") → nl.sodium = 2300) ∧
    (∀ s r, form.sodium = some s → pyFloat s = some r → nl.sodium = r) ∧
    ((form.saturated_fat = none ∨ form.saturated_fat = some "") → nl.saturated_fat = 20) ∧
    (∀ s r, form.saturated_fat = some s → pyFloat s = some r → nl.saturated_fat = r) ∧
    ((form.cholesterol = none ∨ form.cholesterol = some "") → nl.cholesterol = 300) ∧
    (∀ s r, form.cholesterol = some s → pyFloat s = some r → nl.cholesterol = r) ∧
    ((form.potassium = none ∨ form.potassium = some "") → nl.potassium = 3500) ∧
    (∀ s r, form.potassium = some s → pyFloat s = some r → nl.potassium = r) ∧
    nl.user_id = prev.user_id := by
  simp only [settings, Option.bind_eq_some, Option.some.injEq] at h
  obtain ⟨cal, hcal, pro, hpro, car, hcar, fa, hfa, fib, hfib, su, hsu,
    so, hso, sf, hsf, ch, hch, po, hpo, hnl⟩ := h
  subst hnl
  refine ⟨fun hv => parseFormFloat_default hv hcal,
    fun s r hs hr => ?_,
    fun hv => parseFormFloat_default hv hpro,
    fun s r hs hr => ?_,
    fun hv => parseFormFloat_default hv hcar,
    fun s r hs hr => ?_,
    fun hv => parseFormFloat_default hv hfa,
    fun s r hs hr => ?_,
    fun hv => parseFormFloat_default hv hfib,
    fun s r hs hr => ?_,
    fun hv => parseFormFloat_default hv hsu,
    fun s r hs hr => ?_,
    fun hv => parseFormFloat_default hv hso,
    fun s r hs hr => ?_,
    fun hv => parseFormFloat_default hv hsf,
    fun s r hs hr => ?_,
    fun hv => parseFormFloat_default hv hch,
    fun s r hs hr => ?_,
    fun hv => parseFormFloat_default hv hpo,
    fun s r hs hr => ?_,
    rfl⟩
  · rw [hs] at hcal; exact parseFormFloat_numeric hcal hr
  · rw [hs] at hpro; exact parseFormFloat_numeric hpro hr
  · rw [hs] at hcar; exact parseFormFloat_numeric hcar hr
  · rw [hs] at hfa; exact parseFormFloat_numeric hfa hr
  · rw [hs] at hfib; exact parseFormFloat_numeric hfib hr
  · rw [hs] at hsu; exact parseFormFloat_numeric hsu hr
  · rw [hs] at hso; exact parseFormFloat_numeric hso hr
  · rw [hs] at hsf; exact parseFormFloat_numeric hsf hr
  · rw [hs] at hch; exact parseFormFloat_numeric hch hr
  · rw [hs] at hpo; exact parseFormFloat_numeric hpo hr

/-- Concrete witness for the amended settings claim, following the spec's
scenario: previous limits with `fiber = 30`, an update supplying
`calories = "1800"` and an explicitly empty `fiber`, all other fields
absent. The stored record has `calories = 1800`, `fiber = 25` (the
baseline default, not the previous 30) and `protein = 50`. -/
theorem settings_replace_with_default_witness :
    settings
        { user_id := 1, calories := 1700, protein := 60, carbs := 250, fat := 70,
          fiber := 30, sugar := 40, sodium := 2000, saturated_fat := 15,
          cholesterol := 250, potassium := 3000 }
        { calories := some "1800", protein := none, carbs := none, fat := none,
          fiber := some "", sugar := none, sodium := none,
          saturated_fat := none, cholesterol := none, potassium := none } =
      some { user_id := 1, calories := 1800, protein := 50, carbs := 300,
             fat := 65, fiber := 25, sugar := 50, sodium := 2300,
             saturated_fat := 20, cholesterol := 300, potassium := 3500 } ∧
    ({ user_id := 1, calories := 1800, protein := 50, carbs := 300,
       fat := 65, fiber := 25, sugar := 50, sodium := 2300,
       saturated_fat := 20, cholesterol := 300, potassium := 3500 } : DailyLimit).fiber = 25 ∧
    ({ user_id := 1, calories := 1800, protein := 50, carbs := 300,
       fat := 65, fiber := 25, sugar := 50, sodium := 2300,
       saturated_fat := 20, cholesterol := 300, potassium := 3500 } : DailyLimit).calories = 1800 := by
  have ht : takeDigitsAux ['1', '8', '0', '0'] 0 0 = (1800, 4, []) := by decide
  have hpy : pyFloat "1800" = some 1800 := by
    simp +decide [pyFloat, ht]
  have heq :
      settings
        { user_id := 1, calories := 1700, protein := 60, carbs := 250, fat := 70,
          fiber := 30, sugar := 40, sodium := 2000, saturated_fat := 15,
          cholesterol := 250, potassium := 3000 }
        { calories := some "1800", protein := none, carbs := none, fat := none,
          fiber := some "", sugar := none, sodium := none,
          saturated_fat := none, cholesterol := none, potassium := none } =
      some { user_id := 1, calories := 1800, protein := 50, carbs := 300,
             fat := 65, fiber := 25, sugar := 50, sodium := 2300,
             saturated_fat := 20, cholesterol := 300, potassium := 3500 } := by
    simp +decide [settings, parseFormFloat, hpy]
  have T := settings_replace_with_default _ _ _ heq
  exact ⟨heq, T.2.2.2.2.2.2.2.2.1 (Or.inr rfl), T.2.1 "1800" 1800 rfl hpy⟩

/-- Counterexample to claim C2: a meal-ingestion request with no image and
the non-numeric string "abc" in the `calories` field fails (the `float`
call raises `ValueError`), instead of coercing the value to zero. -/
theorem add_meal_nonnumeric_fails_counterexample :
    add_meal 1 1 0
      { name := some "Apfel", description := none, meal_type := none,
        calories := some "abc", protein := none, carbs := none, fat := none,
        fiber := none, sugar := none, sodium := none }
      none (fun s => s) (fun _ => none) = none := by decide

/-- Claim C2 (amended): numeric form fields are lenient only towards absent
and empty input, which is coerced to the field's default; a present
non-empty value is handed to `float` verbatim, and when it is non-numeric
the request fails — in meal ingestion, in goal creation and in the
settings update alike. -/
theorem parse_leniency_amended (d : ℚ) (s : String) (form : MealForm)
    (prev : DailyLimit) (lform : LimitsForm) (uid newId : Nat) (today : Int)
    (fn : Option String) (title : Option String) :
    (parseFormFloat none d = some d) ∧
    (parseFormFloat (some "") d = some d) ∧
    (s ≠ "" → parseFormFloat (some s) d = pyFloat s) ∧
    (form.calories = some s → s ≠ "" → pyFloat s = none →
      manualMeal uid newId today form fn = none) ∧
    (lform.fiber = some s → s ≠ "" → pyFloat s = none →
      settings prev lform = none) ∧
    (s ≠ "" → pyFloat s = none →
      add_goal uid newId title (some s) = none) := by
  refine ⟨rfl, by simp [parseFormFloat], fun hs => by simp [parseFormFloat, hs],
    fun hc hs hn => ?_, fun hc hs hn => ?_, fun hs hn => ?_⟩
  · have hcal : parseFormFloat form.calories 0 = none := by
      rw [hc]; simp [parseFormFloat, hs, hn]
    simp [manualMeal, parsedNutrients, hcal]
  · have hfib : parseFormFloat lform.fiber 25 = none := by
      rw [hc]; simp [parseFormFloat, hs, hn]
    simp only [settings]
    rcases h1 : parseFormFloat lform.calories 2000 with _ | c1 <;> simp only [h1,
      Option.none_bind, Option.some_bind]
    rcases h2 : parseFormFloat lform.protein 50 with _ | c2 <;> simp only [h2,
      Option.none_bind, Option.some_bind]
    rcases h3 : parseFormFloat lform.carbs 300 with _ | c3 <;> simp only [h3,
      Option.none_bind, Option.some_bind]
    rcases h4 : parseFormFloat lform.fat 65 with _ | c4 <;> simp only [h4,
      Option.none_bind, Option.some_bind]
    simp only [hfib, Option.none_bind]
  · simp [add_goal, parseFormFloat, hs, hn]

/-- Concrete witness for the amended leniency claim at the non-numeric
string "abc": an absent field parses to its default, while "abc" makes
meal ingestion, a settings update and goal creation fail. -/
theorem parse_leniency_amended_witness :
    parseFormFloat none 7 = some 7 ∧
    manualMeal 1 1 0
      { name := some "Apfel", description := none, meal_type := none,
        calories := some "abc", protein := none, carbs := none, fat := none,
        fiber := none, sugar := none, sodium := none } none = none ∧
    settings
      { user_id := 1, calories := 1700, protein := 60, carbs := 250, fat := 70,
        fiber := 30, sugar := 40, sodium := 2000, saturated_fat := 15,
        cholesterol := 250, potassium := 3000 }
      { calories := none, protein := none, carbs := none, fat := none,
        fiber := some "abc", sugar := none, sodium := none,
        saturated_fat := none, cholesterol := none, potassium := none } = none ∧
    add_goal 1 1 (some "Abnehmen") (some "abc") = none := by
  have T := parse_leniency_amended 7 "abc"
    { name := some "Apfel", description := none, meal_type := none,
      calories := some "abc", protein := none, carbs := none, fat := none,
      fiber := none, sugar := none, sodium := none }
    { user_id := 1, calories := 1700, protein := 60, carbs := 250, fat := 70,
      fiber := 30, sugar := 40, sodium := 2000, saturated_fat := 15,
      cholesterol := 250, potassium := 3000 }
    { calories := none, protein := none, carbs := none, fat := none,
      fiber := some "abc", sugar := none, sodium := none,
      saturated_fat := none, cholesterol := none, potassium := none }
    1 1 0 none (some "Abnehmen")
  exact ⟨T.1, T.2.2.2.1 rfl (by decide) (by decide),
    T.2.2.2.2.1 rfl (by decide) (by decide),
    T.2.2.2.2.2 (by decide) (by decide)⟩

lemma find?_filter_ne_id {α : Type} (f : α → Nat) (i : Nat) (l : List α) :
    (l.filter fun x => f x != i).find? (fun x => f x == i) = none := by
  induction l with
  | nil => rfl
  | cons a t ih =>
    by_cases h : f a = i
    · simp [List.filter_cons, h, ih]
    · simp [List.filter_cons, h, ih]

lemma find?_map_update_goal (upd : Goal → Goal) (hid : ∀ x, (upd x).id = x.id)
    (gid : Nat) (l : List Goal) (g : Goal)
    (h : l.find? (fun x => x.id == gid) = some g) :
    (l.map fun x => if x.id == gid then upd x else x).find?
      (fun x => x.id == gid) = some (upd g) := by
  induction l with
  | nil => simp at h
  | cons a t ih =>
    rw [List.find?_cons] at h
    by_cases ha : a.id = gid
    · simp only [ha, beq_self_eq_true, cond_true, Option.some.injEq] at h
      subst h
      simp [List.map_cons, ha, List.find?_cons, hid]
    · simp only [beq_eq_false_iff_ne.mpr ha, cond_false] at h
      simp only [List.map_cons, beq_eq_false_iff_ne.mpr ha, if_neg, List.find?_cons]
      have hcond : (a.id == gid) = false := beq_eq_false_iff_ne.mpr ha
      rw [if_neg (by simp [hcond])]
      simp only [List.find?_cons, hcond, cond_false]
      exact ih h

/-- Claim C5: for the mutating goal and meal routes, a missing resource id
yields 404 with the store unchanged; an existing resource owned by another
user yields 403 with the store unchanged; and the owner's request succeeds
(the goal is marked completed, the goal/meal row is deleted). -/
theorem ownership_enforced (goals : List Goal) (meals : List Meal)
    (caller gid mid : Nat) :
    (goals.find? (fun g => g.id == gid) = none →
      complete_goal goals caller gid = (.notFound, goals) ∧
      delete_goal goals caller gid = (.notFound, goals)) ∧
    (∀ g, goals.find? (fun x => x.id == gid) = some g → g.user_id ≠ caller →
      complete_goal goals caller gid = (.forbidden, goals) ∧
      delete_goal goals caller gid = (.forbidden, goals)) ∧
    (∀ g, goals.find? (fun x => x.id == gid) = some g → g.user_id = caller →
      (complete_goal goals caller gid).1 = .ok ∧
      (complete_goal goals caller gid).2.find? (fun x => x.id == gid) =
        some { g with completed := true } ∧
      (delete_goal goals caller gid).1 = .ok ∧
      (delete_goal goals caller gid).2.find? (fun x => x.id == gid) = none) ∧
    (meals.find? (fun m => m.id == mid) = none →
      delete_meal meals caller mid = (.notFound, meals)) ∧
    (∀ m, meals.find? (fun x => x.id == mid) = some m → m.user_id ≠ caller →
      delete_meal meals caller mid = (.forbidden, meals)) ∧
    (∀ m, meals.find? (fun x => x.id == mid) = some m → m.user_id = caller →
      (delete_meal meals caller mid).1 = .ok ∧
      (delete_meal meals caller mid).2.find? (fun x => x.id == mid) = none) := by
  refine ⟨fun h => ?_, fun g hg hne => ?_, fun g hg hown => ?_,
    fun h => ?_, fun m hm hne => ?_, fun m hm hown => ?_⟩
  · exact ⟨by simp [complete_goal, h], by simp [delete_goal, h]⟩
  · exact ⟨by simp [complete_goal, hg, hne], by simp [delete_goal, hg, hne]⟩
  · refine ⟨by simp [complete_goal, hg, hown], ?_, by simp [delete_goal, hg, hown], ?_⟩
    · simp only [complete_goal, hg]
      rw [if_neg (by simp [hown])]
      exact find?_map_update_goal (fun x => { x with completed := true })
        (fun x => rfl) gid goals g hg
    · simp only [delete_goal, hg]
      rw [if_neg (by simp [hown])]
      exact find?_filter_ne_id Goal.id gid goals
  · simp [delete_meal, h]
  · simp [delete_meal, hm, hne]
  · refine ⟨by simp [delete_meal, hm, hown], ?_⟩
    simp only [delete_meal, hm]
    rw [if_neg (by simp [hown])]
    exact find?_filter_ne_id Meal.id mid meals

/-- Concrete witness for the ownership claim: one goal (id 5, fields id,
user, title, target, completed) and one meal (id 7), both owned by user 1.
An unknown goal id yields 404; user 2 gets 403 on both resources; user 1's
own deletions succeed. -/
theorem ownership_enforced_witness :
    complete_goal [⟨5, 1, "Abnehmen", 70, false⟩] 1 99 =
      (.notFound, [⟨5, 1, "Abnehmen", 70, false⟩]) ∧
    delete_goal [⟨5, 1, "Abnehmen", 70, false⟩] 2 5 =
      (.forbidden, [⟨5, 1, "Abnehmen", 70, false⟩]) ∧
    (delete_goal [⟨5, 1, "Abnehmen", 70, false⟩] 1 5).1 = .ok ∧
    delete_meal
        [⟨7, 1, "Apfel", "", none, "snack", 0, 95, 0, 25, 0, 4, 19, 2, 0, 0, 195, 2, 14, 1, 1⟩]
        2 7 =
      (.forbidden,
        [⟨7, 1, "Apfel", "", none, "snack", 0, 95, 0, 25, 0, 4, 19, 2, 0, 0, 195, 2, 14, 1, 1⟩]) ∧
    (delete_meal
        [⟨7, 1, "Apfel", "", none, "snack", 0, 95, 0, 25, 0, 4, 19, 2, 0, 0, 195, 2, 14, 1, 1⟩]
        1 7).1 = .ok := by
  refine ⟨?_, ?_, ?_, ?_, ?_⟩
  · exact ((ownership_enforced _ [] 1 99 99).1 (by decide)).1
  · exact ((ownership_enforced _ [] 2 5 7).2.1
      ⟨5, 1, "Abnehmen", 70, false⟩ (by decide) (by decide)).2
  · exact ((ownership_enforced _ [] 1 5 7).2.2.1
      ⟨5, 1, "Abnehmen", 70, false⟩ (by decide) rfl).2.2.1
  · exact (ownership_enforced [] _ 2 7 7).2.2.2.2.1
      ⟨7, 1, "Apfel", "", none, "snack", 0, 95, 0, 25, 0, 4, 19, 2, 0, 0, 195, 2, 14, 1, 1⟩
      (by decide) (by decide)
  · exact ((ownership_enforced [] _ 1 7 7).2.2.2.2.2
      ⟨7, 1, "Apfel", "", none, "snack", 0, 95, 0, 25, 0, 4, 19, 2, 0, 0, 195, 2, 14, 1, 1⟩
      (by decide) rfl).1

/-- Claim C6 (amended): if the uploaded image is accepted but the external
classifier fails in any way (`analyze_meal_image` catches every exception
and returns None), and the manual nutrient fields parse (each absent,
empty or numeric), ingestion does not fail: a Meal is still created with
name, description, meal type and the seven manual nutrient fields taken
from the form (the stored image remains attached and the classifier was
invoked). Without the parse proviso the claim fails, see the
counterexample. -/
theorem ingestion_falls_back_on_classifier_failure
    (uid newId : Nat) (today : Int) (form : MealForm) (fname : String)
    (storedName : String → String) (classifier : String → Option Analysis)
    (himg : allowed_file fname = true)
    (hfail : classifier (storedName fname) = none)
    (t : ℚ × ℚ × ℚ × ℚ × ℚ × ℚ × ℚ)
    (hp : parsedNutrients form = some t) :
    add_meal uid newId today form (some fname) storedName classifier =
      some
        { meal :=
            { id := newId, user_id := uid,
              name := form.name.getD "Mahlzeit",
              description := form.description.getD "",
              image_path := some (storedName fname),
              meal_type := form.meal_type.getD "snack",
              date := today,
              calories := t.1, protein := t.2.1, carbs := t.2.2.1,
              fat := t.2.2.2.1, fiber := t.2.2.2.2.1, sugar := t.2.2.2.2.2.1,
              sodium := t.2.2.2.2.2.2,
              saturated_fat := 0, cholesterol := 0, potassium := 0,
              vitamin_a := 0, vitamin_c := 0, calcium := 0, iron := 0 },
          storedFile := some (storedName fname),
          classifierCalled := true } := by
  simp [add_meal, himg, hfail, manualMeal, hp]

/-- Claim C9 (amended): for an uploaded image whose filename has no
extension or an extension outside the allow-list, no file is stored, the
classifier is never invoked, and — provided the manual nutrient fields
parse (each absent, empty or numeric) — the request does not fail: the
Meal is created from the manual form fields with a null image reference.
Without the parse proviso the claim fails, see the counterexample. -/
theorem bad_extension_means_manual_entry
    (uid newId : Nat) (today : Int) (form : MealForm) (fname : String)
    (storedName : String → String) (classifier : String → Option Analysis)
    (hbad : allowed_file fname = false)
    (t : ℚ × ℚ × ℚ × ℚ × ℚ × ℚ × ℚ)
    (hp : parsedNutrients form = some t) :
    add_meal uid newId today form (some fname) storedName classifier =
      some
        { meal :=
            { id := newId, user_id := uid,
              name := form.name.getD "Mahlzeit",
              description := form.description.getD "",
              image_path := none,
              meal_type := form.meal_type.getD "snack",
              date := today,
              calories := t.1, protein := t.2.1, carbs := t.2.2.1,
              fat := t.2.2.2.1, fiber := t.2.2.2.2.1, sugar := t.2.2.2.2.2.1,
              sodium := t.2.2.2.2.2.2,
              saturated_fat := 0, cholesterol := 0, potassium := 0,
              vitamin_a := 0, vitamin_c := 0, calcium := 0, iron := 0 },
          storedFile := none,
          classifierCalled := false } := by
  simp [add_meal, hbad, manualMeal, hp]

/-- Concrete witness for the classifier-failure fallback: a request with an
accepted image "foto.png", a failing classifier, and manual fields
name "Apfel", calories "95" creates exactly the manual meal with the
stored image attached. -/
theorem ingestion_falls_back_on_classifier_failure_witness :
    add_meal 1 1 0
        ⟨some "Apfel", none, none, some "95", none, none, none, none, none, none⟩
        (some "foto.png") (fun s => s) (fun _ => none) =
      some ⟨⟨1, 1, "Apfel", "", some "foto.png", "snack", 0,
             95, 0, 0, 0, 0, 0, 0, 0, 0, 0, 0, 0, 0, 0⟩,
            some "foto.png", true⟩ := by
  have ht : takeDigitsAux ['9', '5'] 0 0 = (95, 2, []) := by decide
  have h95 : pyFloat "95" = some 95 := by simp +decide [pyFloat, ht]
  have hp : parsedNutrients
      ⟨some "Apfel", none, none, some "95", none, none, none, none, none, none⟩ =
      some (95, 0, 0, 0, 0, 0, 0) := by
    simp +decide [parsedNutrients, parseFormFloat, h95]
  exact ingestion_falls_back_on_classifier_failure 1 1 0 _ "foto.png" _ _
    (by decide) rfl _ hp

/-- Concrete witness for the disallowed-extension claim: an upload named
"bild" (no extension) with manual fields name "Apfel", calories "95"
creates the manual meal with no stored file, no classifier call and a null
image reference. -/
theorem bad_extension_means_manual_entry_witness :
    add_meal 1 1 0
        ⟨some "Apfel", none, none, some "95", none, none, none, none, none, none⟩
        (some "bild") (fun s => s) (fun _ => none) =
      some ⟨⟨1, 1, "Apfel", "", none, "snack", 0,
             95, 0, 0, 0, 0, 0, 0, 0, 0, 0, 0, 0, 0, 0⟩,
            none, false⟩ := by
  have ht : takeDigitsAux ['9', '5'] 0 0 = (95, 2, []) := by decide
  have h95 : pyFloat "95" = some 95 := by simp +decide [pyFloat, ht]
  have hp : parsedNutrients
      ⟨some "Apfel", none, none, some "95", none, none, none, none, none, none⟩ =
      some (95, 0, 0, 0, 0, 0, 0) := by
    simp +decide [parsedNutrients, parseFormFloat, h95]
  exact bad_extension_means_manual_entry 1 1 0 _ "bild" _ _ (by decide) _ hp

/-- Claim C8: every Meal created through ingestion — via the classifier
branch or via the manual branch — has its date equal to the server's
current day, regardless of any other input. -/
theorem ingested_meal_dated_today
    (uid newId : Nat) (today : Int) (form : MealForm) (image : Option String)
    (storedName : String → String) (classifier : String → Option Analysis)
    (ing : Ingestion)
    (h : add_meal uid newId today form image storedName classifier = some ing) :
    ing.meal.date = today := by
  simp only [add_meal] at h
  split at h
  · simp only [Option.some.injEq] at h
    subst h
    rfl
  · rw [Option.map_eq_some'] at h
    obtain ⟨m, hm, hing⟩ := h
    subst hing
    simp only [manualMeal] at hm
    rw [Option.map_eq_some'] at hm
    obtain ⟨t, hpn, hb⟩ := hm
    subst hb
    rfl

/-- Concrete witness for the today-dating claim: a fully manual submission
on server day 3 produces a meal dated 3. -/
theorem ingested_meal_dated_today_witness :
    (⟨⟨1, 1, "Mahlzeit", "", none, "snack", 3,
       0, 0, 0, 0, 0, 0, 0, 0, 0, 0, 0, 0, 0, 0⟩,
      none, false⟩ : Ingestion).meal.date = 3 := by
  exact ingested_meal_dated_today 1 1 3
    ⟨none, none, none, none, none, none, none, none, none, none⟩
    none (fun s => s) (fun _ => none) _ (by decide)

/-- Claim C10: every Meal created via the manual-entry branch (no image, or
classification failed or not attempted) has its seven extended nutrient
columns — saturated fat, cholesterol, potassium, vitamin A, vitamin C,
calcium, iron — equal to zero: the manual form can set only the other
seven nutrient fields. -/
theorem manual_meal_extended_nutrients_zero
    (uid newId : Nat) (today : Int) (form : MealForm) (fn : Option String)
    (m : Meal) (h : manualMeal uid newId today form fn = some m) :
    m.saturated_fat = 0 ∧ m.cholesterol = 0 ∧ m.potassium = 0 ∧
    m.vitamin_a = 0 ∧ m.vitamin_c = 0 ∧ m.calcium = 0 ∧ m.iron = 0 := by
  simp only [manualMeal] at h
  rw [Option.map_eq_some'] at h
  obtain ⟨t, hpn, hb⟩ := h
  subst hb
  exact ⟨rfl, rfl, rfl, rfl, rfl, rfl, rfl⟩

/-- Concrete witness for the extended-nutrients claim: a manual submission
that fills all seven manual fields still yields zero for the seven
extended columns. -/
theorem manual_meal_extended_nutrients_zero_witness :
    (⟨1, 1, "Salat", "", none, "snack", 0,
      220, 313, 1, 12, 4, 3, 150, 0, 0, 0, 0, 0, 0, 0⟩ : Meal).saturated_fat = 0 ∧
    (⟨1, 1, "Salat", "", none, "snack", 0,
      220, 313, 1, 12, 4, 3, 150, 0, 0, 0, 0, 0, 0, 0⟩ : Meal).cholesterol = 0 ∧
    (⟨1, 1, "Salat", "", none, "snack", 0,
      220, 313, 1, 12, 4, 3, 150, 0, 0, 0, 0, 0, 0, 0⟩ : Meal).potassium = 0 ∧
    (⟨1, 1, "Salat", "", none, "snack", 0,
      220, 313, 1, 12, 4, 3, 150, 0, 0, 0, 0, 0, 0, 0⟩ : Meal).vitamin_a = 0 ∧
    (⟨1, 1, "Salat", "", none, "snack", 0,
      220, 313, 1, 12, 4, 3, 150, 0, 0, 0, 0, 0, 0, 0⟩ : Meal).vitamin_c = 0 ∧
    (⟨1, 1, "Salat", "", none, "snack", 0,
      220, 313, 1, 12, 4, 3, 150, 0, 0, 0, 0, 0, 0, 0⟩ : Meal).calcium = 0 ∧
    (⟨1, 1, "Salat", "", none, "snack", 0,
      220, 313, 1, 12, 4, 3, 150, 0, 0, 0, 0, 0, 0, 0⟩ : Meal).iron = 0 := by
  have ht220 : takeDigitsAux ['2', '2', '0'] 0 0 = (220, 3, []) := by decide
  have ht313 : takeDigitsAux ['3', '1', '3'] 0 0 = (313, 3, []) := by decide
  have ht1 : takeDigitsAux ['1'] 0 0 = (1, 1, []) := by decide
  have ht12 : takeDigitsAux ['1', '2'] 0 0 = (12, 2, []) := by decide
  have ht4 : takeDigitsAux ['4'] 0 0 = (4, 1, []) := by decide
  have ht3 : takeDigitsAux ['3'] 0 0 = (3, 1, []) := by decide
  have ht150 : takeDigitsAux ['1', '5', '0'] 0 0 = (150, 3, []) := by decide
  have h220 : pyFloat "220" = some 220 := by simp +decide [pyFloat, ht220]
  have h313 : pyFloat "313" = some 313 := by simp +decide [pyFloat, ht313]
  have h1 : pyFloat "1" = some 1 := by simp +decide [pyFloat, ht1]
  have h12 : pyFloat "12" = some 12 := by simp +decide [pyFloat, ht12]
  have h4 : pyFloat "4" = some 4 := by simp +decide [pyFloat, ht4]
  have h3 : pyFloat "3" = some 3 := by simp +decide [pyFloat, ht3]
  have h150 : pyFloat "150" = some 150 := by simp +decide [pyFloat, ht150]
  have hp : parsedNutrients
      ⟨some "Salat", none, none, some "220", some "313", some "1", some "12",
       some "4", some "3", some "150"⟩ =
      some (220, 313, 1, 12, 4, 3, 150) := by
    simp +decide [parsedNutrients, parseFormFloat, h220, h313, h1, h12, h4, h3, h150]
  have hm : manualMeal 1 1 0
      ⟨some "Salat", none, none, some "220", some "313", some "1", some "12",
       some "4", some "3", some "150"⟩ none =
      some ⟨1, 1, "Salat", "", none, "snack", 0,
            220, 313, 1, 12, 4, 3, 150, 0, 0, 0, 0, 0, 0, 0⟩ := by
    simp [manualMeal, hp]
  exact manual_meal_extended_nutrients_zero 1 1 0 _ none _ hm

lemma find?_eq_some_of_unique {α : Type} (p : α → Bool) (u : α) :
    ∀ l : List α, u ∈ l → p u = true → (∀ v ∈ l, p v = true → v = u) →
      l.find? p = some u := by
  intro l
  induction l with
  | nil => intro h; simp at h
  | cons a t ih =>
    intro hmem hpu huniq
    by_cases hpa : p a = true
    · have hau : a = u := huniq a (List.mem_cons_self a t) hpa
      simp [List.find?_cons, hpa, hau, hpu]
    · have hau : a ≠ u := fun he => hpa (he ▸ hpu)
      have hmem2 : u ∈ t := by
        rcases List.mem_cons.mp hmem with h | h
        · exact absurd h.symm hau
        · exact h
      have hpa2 : p a = false := by simpa using hpa
      simp only [List.find?_cons, hpa2, cond_false]
      exact ih hmem2 hpu (fun v hv => huniq v (List.mem_cons_of_mem a hv))

/-- Claim C7: requesting the shared profile with a token matching no user
is a 404; with a valid token (unique across users) it resolves to exactly
that user, and the today-totals it computes agree, field by field, with
the totals the owner's own dashboard computes for the same day. -/
theorem shared_profile_matches_dashboard (users : List UserRec)
    (meals : List Meal) (token : String) (today : Int) :
    ((∀ u ∈ users, u.share_token ≠ token) →
      shared_profile users meals token today = none) ∧
    (∀ u, u ∈ users → u.share_token = token →
      (∀ v ∈ users, v.share_token = token → v = u) →
      shared_profile users meals token today =
        some (u.id, sharedTotals meals u.id today) ∧
      (sharedTotals meals u.id today).calories =
        (dashboardTotals meals u.id today).calories ∧
      (sharedTotals meals u.id today).protein =
        (dashboardTotals meals u.id today).protein ∧
      (sharedTotals meals u.id today).carbs =
        (dashboardTotals meals u.id today).carbs ∧
      (sharedTotals meals u.id today).fat =
        (dashboardTotals meals u.id today).fat ∧
      (sharedTotals meals u.id today).fiber =
        (dashboardTotals meals u.id today).fiber) := by
  constructor
  · intro h
    rw [shared_profile, Option.map_eq_none']
    rw [List.find?_eq_none]
    intro x hx
    simp only [beq_iff_eq]
    exact h x hx
  · intro u hu htok huniq
    have hfind : users.find? (fun v => v.share_token == token) = some u := by
      refine find?_eq_some_of_unique _ u users hu (by simp [htok]) ?_
      intro v hv hpv
      exact huniq v hv (by simpa using hpv)
    refine ⟨?_, rfl, rfl, rfl, rfl, rfl⟩
    rw [shared_profile, hfind]
    rfl

/-- Concrete witness for the shared-profile claim: one user with token
"tok4711" and one meal today; the wrong token 404s, the right token
resolves to user 1 with the dashboard's totals. -/
theorem shared_profile_matches_dashboard_witness :
    shared_profile [⟨1, "tok4711"⟩]
        [⟨9, 1, "Apfel", "", none, "snack", 0, 95, 0, 25, 0, 4, 19, 2, 0, 0, 195, 2, 14, 1, 1⟩]
        "falsch" 0 = none ∧
    shared_profile [⟨1, "tok4711"⟩]
        [⟨9, 1, "Apfel", "", none, "snack", 0, 95, 0, 25, 0, 4, 19, 2, 0, 0, 195, 2, 14, 1, 1⟩]
        "tok4711" 0 =
      some (1, sharedTotals
        [⟨9, 1, "Apfel", "", none, "snack", 0, 95, 0, 25, 0, 4, 19, 2, 0, 0, 195, 2, 14, 1, 1⟩]
        1 0) ∧
    (sharedTotals
        [⟨9, 1, "Apfel", "", none, "snack", 0, 95, 0, 25, 0, 4, 19, 2, 0, 0, 195, 2, 14, 1, 1⟩]
        1 0).calories =
      (dashboardTotals
        [⟨9, 1, "Apfel", "", none, "snack", 0, 95, 0, 25, 0, 4, 19, 2, 0, 0, 195, 2, 14, 1, 1⟩]
        1 0).calories := by
  have T := shared_profile_matches_dashboard [⟨1, "tok4711"⟩]
    [⟨9, 1, "Apfel", "", none, "snack", 0, 95, 0, 25, 0, 4, 19, 2, 0, 0, 195, 2, 14, 1, 1⟩]
  have T2 := (T "tok4711" 0).2 ⟨1, "tok4711"⟩ (by decide) rfl (by decide)
  exact ⟨(T "falsch" 0).1 (by decide), T2.1, T2.2.1⟩

/-- Counterexample to claim C6 as stated: with an accepted image and a
failing classifier, the request still fails when a manual nutrient field
is the non-numeric string "abc" — the fallback reaches the manual branch,
whose `float` call raises. -/
theorem classifier_failure_fallback_counterexample :
    add_meal 1 1 0
      ⟨some "Apfel", none, none, some "abc", none, none, none, none, none, none⟩
      (some "essen.jpg") (fun s => s) (fun _ => none) = none := by decide

/-- Counterexample to claim C9 as stated: with an upload of disallowed
extension, the request still fails when a manual nutrient field is the
non-numeric string "abc" — no file is stored and no classifier runs, but
no Meal is created either. -/
theorem bad_extension_counterexample :
    add_meal 1 1 0
      ⟨some "Suppe", none, none, some "abc", none, none, none, none, none, none⟩
      (some "scan.tiff") (fun s => s) (fun _ => none) = none := by decide
